import Mathlib

/-!
Verification development for the HEOS service handlers
(homeassistant/components/heos/services.py): a shallow embedding of the
sign-in, sign-out, join and unjoin service handlers and proofs about the
group-reconciliation logic they implement.

Modelling conventions:
- A HEOS player id is a Nat; Python truthiness of an integer id is
  modelled as the id being nonzero.
- The host entity registry (hass.data[DOMAIN].entities) is a list of
  entities, each carrying a flag for the isinstance HeosMediaPlayer check,
  its entity_id string and its player_id.
- The group snapshot returned by controller.get_groups is an association
  list from group id to group, in dict iteration order; a failed fetch is
  modelled as none.
- Member-id sets computed by Python set comprehensions are Finsets.
- Each handler is a pure function from its inputs to an outcome value
  recording which error path was taken or which collaborator operation(s)
  the handler issues.
-/

namespace HeosServices

/-- Connection state constant compared against controller.connection_state. -/
def STATE_CONNECTED : String := "connected"

/-- A pyheos player as used by the handlers: only player_id is read. -/
structure Player where
  player_id : Nat
  deriving DecidableEq, Repr

/-- A pyheos group: a leader player and a list of member players. -/
structure HeosGroup where
  leader : Player
  members : List Player
  deriving DecidableEq, Repr

/-- An entry of hass.data[DOMAIN].entities as seen by the handlers:
whether it passes the isinstance HeosMediaPlayer check, its entity_id and
its player_id. -/
structure Entity where
  isHeosMediaPlayer : Bool
  entity_id : String
  player_id : Nat
  deriving DecidableEq, Repr

/-- The group snapshot: association list from group id to group
(Python dict iteration order). -/
abbrev GroupSnapshot := List (Nat × HeosGroup)

/-- A group-mutation operation issued against the controller. -/
inductive Op where
  | createGroup (leaderId : Nat) (memberIds : Finset Nat)
  | updateGroup (groupId : Nat) (memberIds : Finset Nat)
  | removeGroup (groupId : Nat)
  deriving DecidableEq

/-- An account call issued against the controller by sign-in/sign-out. -/
inductive AccountCall where
  | signIn (username password : String)
  | signOut
  deriving DecidableEq, Repr

/-- Outcome of a sign-in or sign-out handler invocation. -/
inductive SignOutcome where
  | notConnected
  | attempted (call : AccountCall)
  deriving DecidableEq, Repr

/-- The set of player ids of a group's members
({member.player_id for member in heos_group.members}). -/
def groupMemberIds (g : HeosGroup) : Finset Nat :=
  (g.members.map Player.player_id).toFinset

/-- Python truthiness test `not leader_player_id` on an optional integer:
true when the value is absent (None) or zero. -/
def pyFalsyOptNat : Option Nat → Bool
  | none => true
  | some n => n == 0

/-- Python truthiness test `if existing_heos_group_id:` on an optional
integer: true when present and nonzero. -/
def pyTruthyOptNat : Option Nat → Bool
  | none => false
  | some n => n != 0

/-- Leader resolution loop of _join_handler: the player_id of the first
entity that passes the isinstance check and has the requested entity_id
(none when no entity matches). -/
def resolveLeader (entities : List Entity) (leader : String) : Option Nat :=
  (entities.find? fun e => e.isHeosMediaPlayer && e.entity_id == leader).map
    Entity.player_id

/-- Member resolution of _join_handler: the set of player_ids of entities
that pass the isinstance check and whose entity_id is among the requested
member entity_ids. -/
def resolveMemberIds (entities : List Entity) (members : List String) :
    Finset Nat :=
  ((entities.filter fun e =>
      e.isHeosMediaPlayer && members.contains e.entity_id).map
    Entity.player_id).toFinset

/-- Player-id resolution loop of _unjoin_handler over the requested
ungroup entity_ids. -/
def resolveUngroupIds (entities : List Entity)
    (ungroupEntityIds : List String) : Finset Nat :=
  ((entities.filter fun e =>
      e.isHeosMediaPlayer && ungroupEntityIds.contains e.entity_id).map
    Entity.player_id).toFinset

/-- Outcome of a _join_handler invocation. -/
inductive JoinOutcome where
  | notConnected
  | leaderNotFound
  | nameError
  | issued (op : Op)
  deriving DecidableEq

/-- The _sign_in_handler: rejects when not connected, otherwise calls
controller.sign_in(username, password). -/
def signInHandler (connectionState username password : String) :
    SignOutcome :=
  if connectionState ≠ STATE_CONNECTED then .notConnected
  else .attempted (.signIn username password)

/-- The _sign_out_handler: rejects when not connected, otherwise calls
controller.sign_out(). -/
def signOutHandler (connectionState : String) : SignOutcome :=
  if connectionState ≠ STATE_CONNECTED then .notConnected
  else .attempted .signOut

/-- The _join_handler. Mirrors the source control flow: the
not-connected guard; leader resolution with the Python truthiness test
`not leader_player_id`; on a failed group fetch the exception was caught
and execution continued, so the unbound local variable groups raises a
NameError at the first use groups.items() (reached only after the leader
check); otherwise the first group led by the leader is located, the
requested members are resolved and unioned with the existing group's
members, and the truthiness test `if existing_heos_group_id:` selects
update_group versus create_group. -/
def joinHandler (connectionState : String) (entities : List Entity)
    (leader : String) (members : List String)
    (fetchedGroups : Option GroupSnapshot) : JoinOutcome :=
  if connectionState ≠ STATE_CONNECTED then .notConnected
  else
    let leaderPlayerId := resolveLeader entities leader
    if pyFalsyOptNat leaderPlayerId then .leaderNotFound
    else
      match fetchedGroups with
      | none => .nameError
      | some groups =>
        let lp := leaderPlayerId.getD 0
        let found := groups.find? fun p => p.2.leader.player_id == lp
        let existingHeosGroupId : Option Nat := found.map Prod.fst
        let existingHeosGroupMembers : Finset Nat :=
          match found with
          | some p => groupMemberIds p.2
          | none => ∅
        let newMemberPlayerIds := resolveMemberIds entities members
        let allMemberPlayerIds :=
          newMemberPlayerIds ∪ existingHeosGroupMembers
        if pyTruthyOptNat existingHeosGroupId then
          .issued (.updateGroup (existingHeosGroupId.getD 0)
            allMemberPlayerIds)
        else
          .issued (.createGroup lp allMemberPlayerIds)

/-- Outcome of an _unjoin_handler invocation. -/
inductive UnjoinOutcome where
  | notConnected
  | fetchFailed
  | noMatchingPlayer
  | issued (ops : List Op)
  deriving DecidableEq

/-- The per-group branch of _unjoin_handler: remove the group when its
leader is targeted; otherwise keep = members minus removeIds, remove the
group when keep is empty, update it when keep changed, else no
operation. -/
def unjoinPerGroup (removeIds : Finset Nat) (p : Nat × HeosGroup) :
    Option Op :=
  if p.2.leader.player_id ∈ removeIds then some (.removeGroup p.1)
  else
    let memberPlayerIds := groupMemberIds p.2
    let keepMemberPlayerIds := memberPlayerIds \ removeIds
    if keepMemberPlayerIds = ∅ then some (.removeGroup p.1)
    else if keepMemberPlayerIds ≠ memberPlayerIds then
      some (.updateGroup p.1 keepMemberPlayerIds)
    else none

/-- The _unjoin_handler. Mirrors the source control flow: the
not-connected guard; a failed group fetch returns immediately; an empty
requested entity-id set removes every group; otherwise the requested ids
are resolved to player ids, an empty resolution aborts with the
no-matching-player error, and each group is processed by the per-group
branch. -/
def unjoinHandler (connectionState : String) (entities : List Entity)
    (ungroupEntityIds : List String)
    (fetchedGroups : Option GroupSnapshot) : UnjoinOutcome :=
  if connectionState ≠ STATE_CONNECTED then .notConnected
  else
    match fetchedGroups with
    | none => .fetchFailed
    | some groups =>
      if ungroupEntityIds.toFinset = ∅ then
        .issued (groups.map fun p => .removeGroup p.1)
      else
        let removeIds := resolveUngroupIds entities ungroupEntityIds
        if removeIds = ∅ then .noMatchingPlayer
        else .issued (groups.filterMap (unjoinPerGroup removeIds))

/-- The operations a join outcome issues against the controller. -/
def joinIssuedOps : JoinOutcome → List Op
  | .issued op => [op]
  | _ => []

/-- The operations an unjoin outcome issues against the controller. -/
def unjoinIssuedOps : UnjoinOutcome → List Op
  | .issued ops => ops
  | _ => []

/-- Sample entity registry used in concrete instantiations. -/
def sampleEntities : List Entity :=
  [⟨true, "media_player.p1", 1⟩, ⟨true, "media_player.p2", 2⟩,
   ⟨true, "media_player.p3", 3⟩, ⟨true, "media_player.p4", 4⟩]

/-- find? returns the unique element of the list satisfying the
predicate. -/
theorem find?_eq_some_of_unique {α : Type} (p : α → Bool) (l : List α)
    (a : α) (ha : a ∈ l) (hpa : p a = true)
    (huniq : ∀ b ∈ l, p b = true → b = a) : l.find? p = some a := by
  induction l with
  | nil => cases ha
  | cons x xs ih =>
    by_cases hx : p x = true
    · have hxa : x = a := huniq x (List.mem_cons_self x xs) hx
      rw [List.find?_cons_of_pos _ hx, hxa]
    · have hax : a ∈ xs := by
        rcases List.mem_cons.mp ha with h | h
        · exact absurd (h ▸ hpa) hx
        · exact h
      rw [List.find?_cons_of_neg _ (by simpa using hx)]
      exact ih hax fun b hb hpb => huniq b (List.mem_cons_of_mem _ hb) hpb

/-- A conditional between two issued operations always issues some
operation. -/
theorem exists_issued_ite (c : Prop) [Decidable c] (a b : Op) :
    ∃ op, (if c then JoinOutcome.issued a else JoinOutcome.issued b)
      = .issued op := by
  by_cases h : c
  · exact ⟨a, by simp [h]⟩
  · exact ⟨b, by simp [h]⟩

end HeosServices

namespace HeosServices

/-- Claim C1 (amended): for a join request whose resolved leader (with
nonzero player id) leads an existing group with a nonzero group id and
current member set M, the resulting operation is UpdateGroup on that
group's id with member set D union M, where D is the resolved desired
member set — every pre-existing member is preserved even if not
re-specified. (The nonzero-group-id proviso is forced by the source's
truthiness test on the existing group id.) -/
theorem join_existing_group_updates_with_union
    (connectionState : String) (entities : List Entity) (leader : String)
    (members : List String) (groups : GroupSnapshot) (lp gid : Nat)
    (g : HeosGroup)
    (hconn : connectionState = STATE_CONNECTED)
    (hleader : resolveLeader entities leader = some lp)
    (hlp : lp ≠ 0)
    (hmem : (gid, g) ∈ groups)
    (hlead : g.leader.player_id = lp)
    (huniq : ∀ q ∈ groups, q.2.leader.player_id = lp → q = (gid, g))
    (hgid : gid ≠ 0) :
    joinHandler connectionState entities leader members (some groups)
      = .issued (.updateGroup gid
          (resolveMemberIds entities members ∪ groupMemberIds g)) := by
  have hfind : groups.find? (fun q => q.2.leader.player_id == lp)
      = some (gid, g) :=
    find?_eq_some_of_unique _ _ _ hmem (by simp [hlead])
      (fun b hb hpb => huniq b hb (by simpa using hpb))
  simp [joinHandler, hconn, hleader, hfind, pyFalsyOptNat, pyTruthyOptNat,
    hlp, hgid]

/-- Concrete instantiation of the amended claim C1. -/
theorem join_existing_group_updates_with_union_witness :
    joinHandler STATE_CONNECTED sampleEntities "media_player.p1"
        ["media_player.p4"] (some [(10, ⟨⟨1⟩, [⟨2⟩, ⟨3⟩]⟩)])
      = .issued (.updateGroup 10
          (resolveMemberIds sampleEntities ["media_player.p4"]
            ∪ groupMemberIds ⟨⟨1⟩, [⟨2⟩, ⟨3⟩]⟩)) :=
  join_existing_group_updates_with_union STATE_CONNECTED sampleEntities
    "media_player.p1" ["media_player.p4"] [(10, ⟨⟨1⟩, [⟨2⟩, ⟨3⟩]⟩)] 1 10
    ⟨⟨1⟩, [⟨2⟩, ⟨3⟩]⟩ rfl rfl (by decide) (by decide) rfl (by decide)
    (by decide)

/-- Claim C1 as stated is false on the source: when the existing group's
id is 0 (falsy), the handler issues CreateGroup instead of UpdateGroup on
the existing group's id. -/
theorem join_existing_group_claim_counterexample :
    joinHandler "connected" sampleEntities "media_player.p1" []
        (some [(0, ⟨⟨1⟩, [⟨2⟩]⟩)])
      = .issued (.createGroup 1 ({2} : Finset Nat)) ∧
    JoinOutcome.issued (.createGroup 1 ({2} : Finset Nat))
      ≠ .issued (.updateGroup 0
          (resolveMemberIds sampleEntities []
            ∪ groupMemberIds ⟨⟨1⟩, [⟨2⟩]⟩)) := by
  refine ⟨rfl, fun h => ?_⟩
  injection h with h2
  exact Op.noConfusion h2

/-- Claim C2: for a join request whose resolved leader (with nonzero
player id) leads no group in the fetched snapshot, the resulting
operation is CreateGroup of the leader with exactly the resolved desired
member set. -/
theorem join_no_existing_group_creates_exact
    (connectionState : String) (entities : List Entity) (leader : String)
    (members : List String) (groups : GroupSnapshot) (lp : Nat)
    (hconn : connectionState = STATE_CONNECTED)
    (hleader : resolveLeader entities leader = some lp)
    (hlp : lp ≠ 0)
    (hnone : ∀ q ∈ groups, q.2.leader.player_id ≠ lp) :
    joinHandler connectionState entities leader members (some groups)
      = .issued (.createGroup lp (resolveMemberIds entities members)) := by
  have hfind : groups.find? (fun q => q.2.leader.player_id == lp)
      = none := by
    rw [List.find?_eq_none]
    intro q hq
    simpa using hnone q hq
  simp [joinHandler, hconn, hleader, hfind, pyFalsyOptNat, pyTruthyOptNat,
    hlp]

/-- Concrete instantiation of claim C2. -/
theorem join_no_existing_group_creates_exact_witness :
    joinHandler STATE_CONNECTED sampleEntities "media_player.p1"
        ["media_player.p2"] (some [(10, ⟨⟨5⟩, [⟨6⟩]⟩)])
      = .issued (.createGroup 1
          (resolveMemberIds sampleEntities ["media_player.p2"])) :=
  join_no_existing_group_creates_exact STATE_CONNECTED sampleEntities
    "media_player.p1" ["media_player.p2"] [(10, ⟨⟨5⟩, [⟨6⟩]⟩)] 1 rfl rfl
    (by decide) (by decide)

/-- Claim C3: for a non-empty unjoin request, every group whose leader's
player id is among the resolved remove ids contributes a RemoveGroup
operation for its group id, regardless of which other remove ids overlap
its members. -/
theorem unjoin_leader_targeted_removes_group
    (connectionState : String) (entities : List Entity)
    (ungroupEntityIds : List String) (groups : GroupSnapshot) (gid : Nat)
    (g : HeosGroup)
    (hconn : connectionState = STATE_CONNECTED)
    (hne : ungroupEntityIds ≠ [])
    (hmem : (gid, g) ∈ groups)
    (hlead : g.leader.player_id
      ∈ resolveUngroupIds entities ungroupEntityIds) :
    unjoinHandler connectionState entities ungroupEntityIds (some groups)
      = .issued (groups.filterMap
          (unjoinPerGroup (resolveUngroupIds entities ungroupEntityIds)))
    ∧ Op.removeGroup gid ∈ unjoinIssuedOps
        (unjoinHandler connectionState entities ungroupEntityIds
          (some groups)) := by
  have hset : ungroupEntityIds.toFinset ≠ ∅ := by
    simpa [List.toFinset_eq_empty_iff] using hne
  have hres : resolveUngroupIds entities ungroupEntityIds ≠ ∅ :=
    Finset.ne_empty_of_mem hlead
  have heq : unjoinHandler connectionState entities ungroupEntityIds
      (some groups)
      = .issued (groups.filterMap
          (unjoinPerGroup
            (resolveUngroupIds entities ungroupEntityIds))) := by
    simp [unjoinHandler, hconn, hset, hres]
  refine ⟨heq, ?_⟩
  rw [heq]
  exact List.mem_filterMap.mpr
    ⟨(gid, g), hmem, by simp [unjoinPerGroup, hlead]⟩

/-- Concrete instantiation of claim C3: remove ids target both the leader
and a member of the group; the whole group is removed. -/
theorem unjoin_leader_targeted_removes_group_witness :
    unjoinHandler STATE_CONNECTED sampleEntities
        ["media_player.p1", "media_player.p3"]
        (some [(10, ⟨⟨1⟩, [⟨2⟩, ⟨3⟩]⟩)])
      = .issued ([(10, (⟨⟨1⟩, [⟨2⟩, ⟨3⟩]⟩ : HeosGroup))].filterMap
          (unjoinPerGroup (resolveUngroupIds sampleEntities
            ["media_player.p1", "media_player.p3"])))
    ∧ Op.removeGroup 10 ∈ unjoinIssuedOps
        (unjoinHandler STATE_CONNECTED sampleEntities
          ["media_player.p1", "media_player.p3"]
          (some [(10, ⟨⟨1⟩, [⟨2⟩, ⟨3⟩]⟩)])) :=
  unjoin_leader_targeted_removes_group STATE_CONNECTED sampleEntities
    ["media_player.p1", "media_player.p3"] [(10, ⟨⟨1⟩, [⟨2⟩, ⟨3⟩]⟩)] 10
    ⟨⟨1⟩, [⟨2⟩, ⟨3⟩]⟩ rfl (by decide) (by decide) (by decide)

/-- Claim C4: for a non-empty unjoin request and a group whose leader is
not targeted, with keep = members minus removeIds: an empty keep removes
the group, a changed nonempty keep updates the group to keep, and when
nothing in the group matched (keep nonempty and unchanged) the group
contributes no operation. -/
theorem unjoin_nonleader_member_cases
    (connectionState : String) (entities : List Entity)
    (ungroupEntityIds : List String) (groups : GroupSnapshot) (gid : Nat)
    (g : HeosGroup) (removeIds keep : Finset Nat)
    (hconn : connectionState = STATE_CONNECTED)
    (hne : ungroupEntityIds ≠ [])
    (hrem : removeIds = resolveUngroupIds entities ungroupEntityIds)
    (hres : removeIds ≠ ∅)
    (hmem : (gid, g) ∈ groups)
    (hlead : g.leader.player_id ∉ removeIds)
    (hkeep : keep = groupMemberIds g \ removeIds) :
    (keep = ∅ →
      Op.removeGroup gid ∈ unjoinIssuedOps
        (unjoinHandler connectionState entities ungroupEntityIds
          (some groups)))
    ∧ (keep ≠ ∅ → keep ≠ groupMemberIds g →
        Op.updateGroup gid keep ∈ unjoinIssuedOps
          (unjoinHandler connectionState entities ungroupEntityIds
            (some groups)))
    ∧ (keep ≠ ∅ → keep = groupMemberIds g →
        unjoinPerGroup removeIds (gid, g) = none) := by
  have hset : ungroupEntityIds.toFinset ≠ ∅ := by
    simpa [List.toFinset_eq_empty_iff] using hne
  have heq : unjoinHandler connectionState entities ungroupEntityIds
      (some groups)
      = .issued (groups.filterMap
          (unjoinPerGroup
            (resolveUngroupIds entities ungroupEntityIds))) := by
    simp [unjoinHandler, hconn, hset, hrem ▸ hres]
  refine ⟨fun hk => ?_, fun hk hkm => ?_, fun hk hkm => ?_⟩
  · rw [heq]
    exact List.mem_filterMap.mpr ⟨(gid, g), hmem, by
      rw [← hrem]
      simp [unjoinPerGroup, hlead, ← hkeep, hk]⟩
  · rw [heq]
    exact List.mem_filterMap.mpr ⟨(gid, g), hmem, by
      rw [← hrem]
      simp [unjoinPerGroup, hlead, ← hkeep, hk, hkm]⟩
  · have hm : groupMemberIds g ≠ ∅ := hkm ▸ hk
    simp [unjoinPerGroup, hlead, ← hkeep, hk, hkm, hm]

/-- Concrete instantiations of claim C4, one per case: a member-only
removal shrinks the group, removal of the last member removes the group,
and an untouched group contributes no operation. -/
theorem unjoin_nonleader_member_cases_witness :
    Op.updateGroup 10
        (groupMemberIds ⟨⟨1⟩, [⟨2⟩, ⟨3⟩]⟩
          \ resolveUngroupIds sampleEntities ["media_player.p3"])
      ∈ unjoinIssuedOps
        (unjoinHandler STATE_CONNECTED sampleEntities ["media_player.p3"]
          (some [(10, ⟨⟨1⟩, [⟨2⟩, ⟨3⟩]⟩)]))
    ∧ Op.removeGroup 10 ∈ unjoinIssuedOps
        (unjoinHandler STATE_CONNECTED sampleEntities ["media_player.p2"]
          (some [(10, ⟨⟨1⟩, [⟨2⟩]⟩)]))
    ∧ unjoinPerGroup (resolveUngroupIds sampleEntities ["media_player.p4"])
        (10, ⟨⟨1⟩, [⟨2⟩]⟩) = none := by
  refine ⟨?_, ?_, ?_⟩
  · exact (unjoin_nonleader_member_cases STATE_CONNECTED sampleEntities
      ["media_player.p3"] [(10, ⟨⟨1⟩, [⟨2⟩, ⟨3⟩]⟩)] 10 ⟨⟨1⟩, [⟨2⟩, ⟨3⟩]⟩
      (resolveUngroupIds sampleEntities ["media_player.p3"])
      (groupMemberIds ⟨⟨1⟩, [⟨2⟩, ⟨3⟩]⟩
        \ resolveUngroupIds sampleEntities ["media_player.p3"])
      rfl (by decide) rfl (by decide) (by decide) (by decide)
      rfl).2.1 (by decide) (by decide)
  · exact (unjoin_nonleader_member_cases STATE_CONNECTED sampleEntities
      ["media_player.p2"] [(10, ⟨⟨1⟩, [⟨2⟩]⟩)] 10 ⟨⟨1⟩, [⟨2⟩]⟩
      (resolveUngroupIds sampleEntities ["media_player.p2"]) ∅
      rfl (by decide) rfl (by decide) (by decide) (by decide)
      rfl).1 rfl
  · exact (unjoin_nonleader_member_cases STATE_CONNECTED sampleEntities
      ["media_player.p4"] [(10, ⟨⟨1⟩, [⟨2⟩]⟩)] 10 ⟨⟨1⟩, [⟨2⟩]⟩
      (resolveUngroupIds sampleEntities ["media_player.p4"])
      (groupMemberIds ⟨⟨1⟩, [⟨2⟩]⟩
        \ resolveUngroupIds sampleEntities ["media_player.p4"])
      rfl (by decide) rfl (by decide) (by decide) (by decide)
      rfl).2.2 (by decide) (by decide)

/-- Claim C5: an unjoin request with an empty id list produces exactly
one RemoveGroup per group in the snapshot and nothing else. -/
theorem unjoin_empty_request_removes_every_group
    (connectionState : String) (entities : List Entity)
    (groups : GroupSnapshot)
    (hconn : connectionState = STATE_CONNECTED) :
    unjoinHandler connectionState entities [] (some groups)
      = .issued (groups.map fun p => Op.removeGroup p.1)
    ∧ (unjoinIssuedOps
        (unjoinHandler connectionState entities [] (some groups))).length
      = groups.length
    ∧ ∀ op ∈ unjoinIssuedOps
        (unjoinHandler connectionState entities [] (some groups)),
        ∃ i, op = Op.removeGroup i := by
  have heq : unjoinHandler connectionState entities [] (some groups)
      = .issued (groups.map fun p => Op.removeGroup p.1) := by
    simp [unjoinHandler, hconn]
  refine ⟨heq, ?_, ?_⟩
  · rw [heq]
    simp [unjoinIssuedOps]
  · rw [heq]
    intro op hop
    obtain ⟨p, _, rfl⟩ := List.mem_map.mp hop
    exact ⟨p.1, rfl⟩

/-- Concrete instantiation of claim C5 on a two-group snapshot. -/
theorem unjoin_empty_request_removes_every_group_witness :
    unjoinHandler STATE_CONNECTED sampleEntities []
        (some [(10, ⟨⟨1⟩, [⟨2⟩]⟩), (11, ⟨⟨3⟩, [⟨4⟩]⟩)])
      = .issued ([(10, (⟨⟨1⟩, [⟨2⟩]⟩ : HeosGroup)),
          (11, (⟨⟨3⟩, [⟨4⟩]⟩ : HeosGroup))].map
            fun p => Op.removeGroup p.1)
    ∧ (unjoinIssuedOps
        (unjoinHandler STATE_CONNECTED sampleEntities []
          (some [(10, ⟨⟨1⟩, [⟨2⟩]⟩), (11, ⟨⟨3⟩, [⟨4⟩]⟩)]))).length
      = [(10, (⟨⟨1⟩, [⟨2⟩]⟩ : HeosGroup)),
          (11, (⟨⟨3⟩, [⟨4⟩]⟩ : HeosGroup))].length
    ∧ ∀ op ∈ unjoinIssuedOps
        (unjoinHandler STATE_CONNECTED sampleEntities []
          (some [(10, ⟨⟨1⟩, [⟨2⟩]⟩), (11, ⟨⟨3⟩, [⟨4⟩]⟩)])),
        ∃ i, op = Op.removeGroup i :=
  unjoin_empty_request_removes_every_group STATE_CONNECTED sampleEntities
    [(10, ⟨⟨1⟩, [⟨2⟩]⟩), (11, ⟨⟨3⟩, [⟨4⟩]⟩)] rfl

/-- Claim C6: behaviour of the source at a failed group fetch in the join
path. The handler does not abort at the fetch failure: it continues,
resolves the leader and acts on that outcome (an unresolvable leader is
reported as identifier-not-found), and when the leader does resolve it
crashes with a NameError at the first use of the unbound groups variable.
No CreateGroup or UpdateGroup operation is issued in either case. -/
theorem join_fetch_failure_behaviour :
    joinHandler "connected" sampleEntities "media_player.p1" [] none
      = .nameError
    ∧ joinHandler "connected" sampleEntities "media_player.nope" [] none
      = .leaderNotFound
    ∧ joinIssuedOps
        (joinHandler "connected" sampleEntities "media_player.p1" [] none)
      = []
    ∧ joinIssuedOps
        (joinHandler "connected" sampleEntities "media_player.nope" []
          none)
      = [] :=
  ⟨rfl, rfl, rfl, rfl⟩

/-- Claim C7: a non-empty unjoin request none of whose entity ids
resolves to any player aborts with the no-matching-player failure and
issues no operation. -/
theorem unjoin_no_matching_player_aborts
    (connectionState : String) (entities : List Entity)
    (ungroupEntityIds : List String) (groups : GroupSnapshot)
    (hconn : connectionState = STATE_CONNECTED)
    (hne : ungroupEntityIds ≠ [])
    (hres : resolveUngroupIds entities ungroupEntityIds = ∅) :
    unjoinHandler connectionState entities ungroupEntityIds (some groups)
      = .noMatchingPlayer
    ∧ unjoinIssuedOps
        (unjoinHandler connectionState entities ungroupEntityIds
          (some groups))
      = [] := by
  have hset : ungroupEntityIds.toFinset ≠ ∅ := by
    simpa [List.toFinset_eq_empty_iff] using hne
  have heq : unjoinHandler connectionState entities ungroupEntityIds
      (some groups) = .noMatchingPlayer := by
    simp [unjoinHandler, hconn, hset, hres]
  exact ⟨heq, by rw [heq]; rfl⟩

/-- Concrete instantiation of claim C7. -/
theorem unjoin_no_matching_player_aborts_witness :
    unjoinHandler STATE_CONNECTED sampleEntities ["media_player.nope"]
        (some [(10, ⟨⟨1⟩, [⟨2⟩]⟩)])
      = .noMatchingPlayer
    ∧ unjoinIssuedOps
        (unjoinHandler STATE_CONNECTED sampleEntities
          ["media_player.nope"] (some [(10, ⟨⟨1⟩, [⟨2⟩]⟩)]))
      = [] :=
  unjoin_no_matching_player_aborts STATE_CONNECTED sampleEntities
    ["media_player.nope"] [(10, ⟨⟨1⟩, [⟨2⟩]⟩)] rfl (by decide) (by decide)

/-- Claim C8: when the controller's connection state is not
"connected", each of the four handlers rejects the action at entry and
issues no call or operation. -/
theorem not_connected_rejects_all_handlers
    (connectionState username password : String)
    (entities : List Entity) (leader : String) (members : List String)
    (ungroupEntityIds : List String)
    (fetchJoin fetchUnjoin : Option GroupSnapshot)
    (hconn : connectionState ≠ STATE_CONNECTED) :
    signInHandler connectionState username password = .notConnected
    ∧ signOutHandler connectionState = .notConnected
    ∧ joinHandler connectionState entities leader members fetchJoin
      = .notConnected
    ∧ unjoinHandler connectionState entities ungroupEntityIds fetchUnjoin
      = .notConnected
    ∧ joinIssuedOps
        (joinHandler connectionState entities leader members fetchJoin)
      = []
    ∧ unjoinIssuedOps
        (unjoinHandler connectionState entities ungroupEntityIds
          fetchUnjoin)
      = [] := by
  refine ⟨?_, ?_, ?_, ?_, ?_, ?_⟩ <;>
    simp [signInHandler, signOutHandler, joinHandler, unjoinHandler,
      joinIssuedOps, unjoinIssuedOps, hconn]

/-- Concrete instantiation of claim C8 with a disconnected state. -/
theorem not_connected_rejects_all_handlers_witness :
    signInHandler "disconnected" "user" "pass" = .notConnected
    ∧ signOutHandler "disconnected" = .notConnected
    ∧ joinHandler "disconnected" sampleEntities "media_player.p1"
        ["media_player.p2"] (some []) = .notConnected
    ∧ unjoinHandler "disconnected" sampleEntities ["media_player.p2"]
        (some []) = .notConnected
    ∧ joinIssuedOps
        (joinHandler "disconnected" sampleEntities "media_player.p1"
          ["media_player.p2"] (some []))
      = []
    ∧ unjoinIssuedOps
        (unjoinHandler "disconnected" sampleEntities ["media_player.p2"]
          (some []))
      = [] :=
  not_connected_rejects_all_handlers "disconnected" "user" "pass"
    sampleEntities "media_player.p1" ["media_player.p2"]
    ["media_player.p2"] (some []) (some []) (by decide)

/-- Claim C9: a member entity id matching no entity is dropped silently
from the resolved member set; with a resolved (nonzero) leader the join
proceeds to issue an operation whatever the resolved member set is; and
an unresolvable leader makes the whole join fail. -/
theorem join_member_resolution_behaviour
    (entities : List Entity) (u leader : String) (ms members : List String)
    (lp : Nat) (groups : GroupSnapshot)
    (fetchedGroups : Option GroupSnapshot) :
    ((∀ e ∈ entities,
        ¬(e.isHeosMediaPlayer = true ∧ e.entity_id = u)) →
      resolveMemberIds entities (u :: ms) = resolveMemberIds entities ms)
    ∧ (resolveLeader entities leader = some lp → lp ≠ 0 →
        ∃ op, joinHandler STATE_CONNECTED entities leader members
          (some groups) = .issued op)
    ∧ (resolveLeader entities leader = none →
        joinHandler STATE_CONNECTED entities leader members fetchedGroups
          = .leaderNotFound) := by
  refine ⟨fun hu => ?_, fun hl hlp => ?_, fun hl => ?_⟩
  · unfold resolveMemberIds
    congr 1
    apply congrArg
    apply List.filter_congr
    intro e he
    cases hP : e.isHeosMediaPlayer with
    | false => simp
    | true =>
      have : e.entity_id ≠ u := fun h => hu e he ⟨hP, h⟩
      simp [List.contains_cons, this]
  · have hfal : pyFalsyOptNat (some lp) = false := by
      simp [pyFalsyOptNat, hlp]
    simp only [joinHandler, hl, hfal, Bool.false_eq_true, if_false]
    exact exists_issued_ite _ _ _
  · unfold joinHandler
    rw [hl]
    simp [pyFalsyOptNat]

/-- Concrete instantiations of claim C9: a ghost member id does not
change the resolved member set; a join whose members all fail to resolve
still issues an operation; a ghost leader makes the join fail. -/
theorem join_member_resolution_behaviour_witness :
    resolveMemberIds sampleEntities
        ("media_player.ghost" :: ["media_player.p2"])
      = resolveMemberIds sampleEntities ["media_player.p2"]
    ∧ (∃ op, joinHandler STATE_CONNECTED sampleEntities "media_player.p1"
        ["media_player.ghost"] (some []) = .issued op)
    ∧ joinHandler STATE_CONNECTED sampleEntities "media_player.ghost"
        ["media_player.p2"] (some []) = .leaderNotFound := by
  refine ⟨?_, ?_, ?_⟩
  · exact (join_member_resolution_behaviour sampleEntities
      "media_player.ghost" "media_player.p1" ["media_player.p2"]
      ["media_player.ghost"] 1 [] (some [])).1 (by decide)
  · exact (join_member_resolution_behaviour sampleEntities
      "media_player.ghost" "media_player.p1" [] ["media_player.ghost"] 1
      [] (some [])).2.1 rfl (by decide)
  · exact (join_member_resolution_behaviour sampleEntities
      "media_player.ghost" "media_player.ghost" ["media_player.p2"]
      ["media_player.p2"] 1 [] (some [])).2.2 rfl

/-- Claim C10: a leader entity id that resolves to a player whose
player id is 0 (falsy) is reported as not found by the truthiness test
and the join aborts without issuing any operation. -/
theorem join_falsy_leader_id_reports_not_found
    (connectionState : String) (entities : List Entity) (leader : String)
    (members : List String) (fetchedGroups : Option GroupSnapshot)
    (hconn : connectionState = STATE_CONNECTED)
    (hres : resolveLeader entities leader = some 0) :
    joinHandler connectionState entities leader members fetchedGroups
      = .leaderNotFound
    ∧ joinIssuedOps
        (joinHandler connectionState entities leader members
          fetchedGroups)
      = [] := by
  have heq : joinHandler connectionState entities leader members
      fetchedGroups = .leaderNotFound := by
    unfold joinHandler
    rw [hconn, hres]
    simp [pyFalsyOptNat]
  exact ⟨heq, by rw [heq]; rfl⟩

/-- Concrete instantiation of claim C10: an entity with player id 0
matching the requested leader. -/
theorem join_falsy_leader_id_reports_not_found_witness :
    joinHandler STATE_CONNECTED [⟨true, "media_player.z", 0⟩]
        "media_player.z" [] (some []) = .leaderNotFound
    ∧ joinIssuedOps
        (joinHandler STATE_CONNECTED [⟨true, "media_player.z", 0⟩]
          "media_player.z" [] (some []))
      = [] :=
  join_falsy_leader_id_reports_not_found STATE_CONNECTED
    [⟨true, "media_player.z", 0⟩] "media_player.z" [] (some []) rfl rfl

end HeosServices
